import Mathlib

/-!
Verification development for the nRF7002DK Wi-Fi glue module
(`src/wifi/wifi.cpp`).  The module translates asynchronous Zephyr
network-management events into a handful of process-wide flags, and offers a
small blocking command surface (`scan`, `connect`, `disconnect`, waits).

The embedding below is a shallow one: the process-wide mutable state becomes
an explicit `WifiState` record; each C function becomes a Lean function from
state (plus the outcome of the external `net_mgmt` call, supplied as an
input) to result, new state, and the list of requests it issued to the
network-management stack.  Busy-wait loops are modelled with an explicit
environment: a list of per-poll-iteration event batches delivered while the
loop sleeps; a loop that does not exit within the environment's horizon
returns `none` (the real code would still be spinning).
-/

set_option autoImplicit false

namespace Wifi

/-- Error constants, as in Zephyr's errno numbering.  The C code returns the
negated values. -/
def ENOEXEC : Int := 8

def EALREADY : Int := 120

def ETIMEDOUT : Int := 110

/-- The wifi configuration stored on the device driver by
`dev->set_wifi_config(ssid, psk, security)`: the raw arguments of the call. -/
structure WifiConfig where
  ssid : String
  psk : Option String
  security : Int
deriving Repr, DecidableEq

/-- The process-wide mutable state of `wifi.cpp`: the `context` bitfield
(`connecting`, `disconnecting`), the file-scope statics (`scan_result`,
`scan_running`, `dhcp_configured`, `wifi_connected`, `timed_out`), whether
`timeout_timer` is currently running, and the device driver's stored wifi
configuration (written by `cmd_wifi_connect` via `set_wifi_config`). -/
structure WifiState where
  connecting : Bool
  disconnecting : Bool
  scan_running : Bool
  scan_result : Nat
  wifi_connected : Bool
  dhcp_configured : Bool
  timed_out : Bool
  timer_running : Bool
  wifi_config : Option WifiConfig
deriving Repr, DecidableEq

/-- The state after `wifi_shell_init` (context.all = 0, counters 0, the
`bool` statics start `false`, no timer running, no stored config). -/
def initState : WifiState :=
  { connecting := false
    disconnecting := false
    scan_running := false
    scan_result := 0
    wifi_connected := false
    dhcp_configured := false
    timed_out := false
    timer_running := false
    wifi_config := none }

/-- The `wifi_connect_req_params` structure that `cmd_wifi_connect` fills in
and hands to `net_mgmt(NET_REQUEST_WIFI_CONNECT, ...)`.  Only the fields the
code sets are modelled; `channel` is `WIFI_CHANNEL_ANY = 255`, `mfp_optional`
records whether `mfp = WIFI_MFP_OPTIONAL` was set (only when a psk is
given), and `security = 0` stands for `WIFI_SECURITY_TYPE_NONE`. -/
structure ConnectParams where
  ssid : String
  ssid_length : Nat
  channel : Nat
  psk : Option String
  psk_length : Nat
  security : Int
  mfp_optional : Bool
deriving Repr, DecidableEq

/-- A request issued to the network-management stack via `net_mgmt`. -/
inductive Request where
  | scanReq : Request
  | connectReq : ConnectParams → Request
  | disconnectReq : Request
deriving Repr, DecidableEq

/-- The asynchronous occurrences that can reach the module: the wifi
management events dispatched by `wifi_mgmt_event_handler`, the DHCP-bound
event of `net_mgmt_event_handler`, and the expiry of `timeout_timer`.
`status` carries the `wifi_status.status` field of the event payload. -/
inductive WifiEvent where
  | scanResultEvt : WifiEvent
  | scanDoneEvt : Int → WifiEvent
  | connectResultEvt : Int → WifiEvent
  | disconnectResultEvt : Int → WifiEvent
  | twtEvt : WifiEvent
  | dhcpBoundEvt : WifiEvent
  | timerFire : WifiEvent
deriving Repr, DecidableEq

/-- `handle_wifi_scan_result`: increments the `uint32_t` result counter
(modulo 2^32) and logs the entry; nothing else. -/
def handle_wifi_scan_result (s : WifiState) : WifiState :=
  { s with scan_result := (s.scan_result + 1) % 2 ^ 32 }

/-- `handle_wifi_scan_done`: logs an error when `status` is non-zero, then
unconditionally resets the counter and clears `scan_running`. -/
def handle_wifi_scan_done (s : WifiState) (status : Int) : WifiState :=
  { s with scan_result := 0, scan_running := false }

/-- `handle_wifi_connect_result`: on zero status sets `wifi_connected`; on
non-zero status only logs; in both cases clears `context.connecting`. -/
def handle_wifi_connect_result (s : WifiState) (status : Int) : WifiState :=
  if status ≠ 0 then
    { s with connecting := false }
  else
    { s with wifi_connected := true, connecting := false }

/-- `handle_wifi_disconnect_result`: when `context.disconnecting` is set
(solicited disconnect) clears both `disconnecting` and `wifi_connected`;
otherwise (unsolicited) only logs and changes nothing. -/
def handle_wifi_disconnect_result (s : WifiState) (status : Int) : WifiState :=
  if s.disconnecting then
    { s with disconnecting := false, wifi_connected := false }
  else
    s

/-- `net_mgmt_event_handler` on `NET_EVENT_IPV4_DHCP_BOUND`: logs the leased
address and sets `dhcp_configured`. -/
def handle_dhcp_bound (s : WifiState) : WifiState :=
  { s with dhcp_configured := true }

/-- `timer_timeout`, the `timeout_timer` expiry callback: sets `timed_out`.
The timer is one-shot (`K_NO_WAIT` period), so it fires only while running
and is no longer running afterwards. -/
def timer_timeout (s : WifiState) : WifiState :=
  if s.timer_running then
    { s with timed_out := true, timer_running := false }
  else
    s

/-- Dispatch of one asynchronous occurrence, following
`wifi_mgmt_event_handler` / `net_mgmt_event_handler` (TWT and unknown events
are ignored). -/
def applyEvent (s : WifiState) : WifiEvent → WifiState
  | WifiEvent.scanResultEvt => handle_wifi_scan_result s
  | WifiEvent.scanDoneEvt status => handle_wifi_scan_done s status
  | WifiEvent.connectResultEvt status => handle_wifi_connect_result s status
  | WifiEvent.disconnectResultEvt status => handle_wifi_disconnect_result s status
  | WifiEvent.twtEvt => s
  | WifiEvent.dhcpBoundEvt => handle_dhcp_bound s
  | WifiEvent.timerFire => timer_timeout s

/-- A batch of events delivered during one poll-sleep of a busy-wait loop. -/
def applyEvents (s : WifiState) (evs : List WifiEvent) : WifiState :=
  evs.foldl applyEvent s

/-- `cmd_wifi_scan`: issues the scan request (its outcome `req_result` is an
input: the return value of `net_mgmt(NET_REQUEST_WIFI_SCAN, ...)`), sets
`scan_running := 1` on both branches, and returns `-ENOEXEC` exactly when
the request call failed. -/
def cmd_wifi_scan (s : WifiState) (req_result : Int) :
    Int × WifiState × List Request :=
  if req_result ≠ 0 then
    (-ENOEXEC, { s with scan_running := true }, [Request.scanReq])
  else
    (0, { s with scan_running := true }, [Request.scanReq])

/-- `cmd_wifi_connect`: `ssid`/`psk` are C pointers, modelled as
`Option String` (`none` = NULL).  On a NULL ssid it returns `-1` at once
(no request, no state change).  Otherwise it builds `cnx_params` (open
security and no psk fields when `psk` is NULL, else the given security with
optional MFP), sets `context.connecting`, stores the configuration on the
device via `set_wifi_config`, and issues the connect request, whose outcome
`req_result` is an input; on request failure it clears `connecting` and
returns `-ENOEXEC`. -/
def cmd_wifi_connect (s : WifiState) (ssid psk : Option String)
    (security : Int) (req_result : Int) : Int × WifiState × List Request :=
  match ssid with
  | none => (-1, s, [])
  | some ss =>
      let cnx : ConnectParams :=
        { ssid := ss
          ssid_length := ss.length
          channel := 255
          psk := psk
          psk_length := match psk with | none => 0 | some p => p.length
          security := match psk with | none => 0 | some _ => security
          mfp_optional := psk.isSome }
      let s1 : WifiState :=
        { s with connecting := true
                 wifi_config := some ⟨ss, psk, security⟩ }
      if req_result ≠ 0 then
        (-ENOEXEC, { s1 with connecting := false }, [Request.connectReq cnx])
      else
        (0, s1, [Request.connectReq cnx])

/-- `cmd_wifi_disconnect`: sets `context.disconnecting`, issues the
disconnect request (outcome `req_status` is an input).  On `-EALREADY` it
clears `disconnecting` and still returns 0; on any other non-zero status it
clears `disconnecting` and returns `-ENOEXEC`; on success it returns 0 with
`disconnecting` left set. -/
def cmd_wifi_disconnect (s : WifiState) (req_status : Int) :
    Int × WifiState × List Request :=
  let s1 : WifiState := { s with disconnecting := true }
  if req_status ≠ 0 then
    if req_status = -EALREADY then
      (0, { s1 with disconnecting := false }, [Request.disconnectReq])
    else
      (-ENOEXEC, { s1 with disconnecting := false }, [Request.disconnectReq])
  else
    (0, s1, [Request.disconnectReq])

/-- The busy-wait loop of `cmd_wifi_scan_done`:
`while (scan_running) ei_sleep(100);`.  One environment entry per sleep;
`none` means the loop is still spinning when the environment runs out. -/
def scan_done_loop : WifiState → List (List WifiEvent) → Option WifiState
  | s, env =>
      if s.scan_running = false then some s
      else
        match env with
        | [] => none
        | evs :: rest => scan_done_loop (applyEvents s evs) rest

/-- The busy-wait loop of `cmd_wifi_connecting`:
`while (context.connecting && !timed_out) ei_sleep(100);`. -/
def connecting_loop : WifiState → List (List WifiEvent) → Option WifiState
  | s, env =>
      if s.connecting = false ∨ s.timed_out = true then some s
      else
        match env with
        | [] => none
        | evs :: rest => connecting_loop (applyEvents s evs) rest

/-- The busy-wait loop of `cmd_dhcp_configured`:
`while (!dhcp_configured && !timed_out) ei_sleep(500);`. -/
def dhcp_loop : WifiState → List (List WifiEvent) → Option WifiState
  | s, env =>
      if s.dhcp_configured = true ∨ s.timed_out = true then some s
      else
        match env with
        | [] => none
        | evs :: rest => dhcp_loop (applyEvents s evs) rest

/-- `cmd_wifi_scan_done`: polls `scan_running` until cleared; no timeout and
no return value. -/
def cmd_wifi_scan_done (s : WifiState) (env : List (List WifiEvent)) :
    Option WifiState :=
  scan_done_loop s env

/-- `cmd_wifi_connecting`: resets `timed_out`, starts `timeout_timer`
(30 s one-shot), polls `connecting` until cleared or timed out, stops the
timer, and returns `-ETIMEDOUT` when it timed out, else 0. -/
def cmd_wifi_connecting (s : WifiState) (env : List (List WifiEvent)) :
    Option (Int × WifiState) :=
  match connecting_loop { s with timed_out := false, timer_running := true } env with
  | none => none
  | some s1 =>
      if s1.timed_out then some (-ETIMEDOUT, { s1 with timer_running := false })
      else some (0, { s1 with timer_running := false })

/-- `cmd_dhcp_configured`: same pattern as `cmd_wifi_connecting`, polling
`dhcp_configured` at 500 ms. -/
def cmd_dhcp_configured (s : WifiState) (env : List (List WifiEvent)) :
    Option (Int × WifiState) :=
  match dhcp_loop { s with timed_out := false, timer_running := true } env with
  | none => none
  | some s1 =>
      if s1.timed_out then some (-ETIMEDOUT, { s1 with timer_running := false })
      else some (0, { s1 with timer_running := false })

/-- `cmd_wifi_connected`: non-blocking read of `wifi_connected`. -/
def cmd_wifi_connected (s : WifiState) : Bool :=
  s.wifi_connected

/-- States reachable from `initState` by any interleaving of command calls
(with arbitrary outcomes of the external `net_mgmt` requests) and
asynchronous event-handler invocations.  A wait contributes a reachable
state only when it actually returns within its environment's horizon. -/
inductive Reachable : WifiState → Prop where
  | init : Reachable initState
  | evt (e : WifiEvent) {s : WifiState} :
      Reachable s → Reachable (applyEvent s e)
  | scan (r : Int) {s : WifiState} :
      Reachable s → Reachable (cmd_wifi_scan s r).2.1
  | connect (ssid psk : Option String) (sec r : Int) {s : WifiState} :
      Reachable s → Reachable (cmd_wifi_connect s ssid psk sec r).2.1
  | disconnect (r : Int) {s : WifiState} :
      Reachable s → Reachable (cmd_wifi_disconnect s r).2.1
  | scanDoneWait (env : List (List WifiEvent)) {s s' : WifiState} :
      Reachable s → cmd_wifi_scan_done s env = some s' → Reachable s'
  | connectingWait (env : List (List WifiEvent)) (r : Int) {s s' : WifiState} :
      Reachable s → cmd_wifi_connecting s env = some (r, s') → Reachable s'
  | dhcpWait (env : List (List WifiEvent)) (r : Int) {s s' : WifiState} :
      Reachable s → cmd_dhcp_configured s env = some (r, s') → Reachable s'

/-- Disciplined reachability: as `Reachable`, but `connect` is only called
while no disconnect is pending and `disconnect` only while no connect is
pending — the "normal operation" caller discipline of the spec. -/
inductive ReachableSeq : WifiState → Prop where
  | init : ReachableSeq initState
  | evt (e : WifiEvent) {s : WifiState} :
      ReachableSeq s → ReachableSeq (applyEvent s e)
  | scan (r : Int) {s : WifiState} :
      ReachableSeq s → ReachableSeq (cmd_wifi_scan s r).2.1
  | connect (ssid psk : Option String) (sec r : Int) {s : WifiState} :
      ReachableSeq s → s.disconnecting = false →
      ReachableSeq (cmd_wifi_connect s ssid psk sec r).2.1
  | disconnect (r : Int) {s : WifiState} :
      ReachableSeq s → s.connecting = false →
      ReachableSeq (cmd_wifi_disconnect s r).2.1
  | scanDoneWait (env : List (List WifiEvent)) {s s' : WifiState} :
      ReachableSeq s → cmd_wifi_scan_done s env = some s' → ReachableSeq s'
  | connectingWait (env : List (List WifiEvent)) (r : Int) {s s' : WifiState} :
      ReachableSeq s → cmd_wifi_connecting s env = some (r, s') →
      ReachableSeq s'
  | dhcpWait (env : List (List WifiEvent)) (r : Int) {s s' : WifiState} :
      ReachableSeq s → cmd_dhcp_configured s env = some (r, s') →
      ReachableSeq s'

/-- The mutual-exclusion property of the claimed invariant: not both
`connecting` and `disconnecting` set. -/
def FlagsOk (s : WifiState) : Prop :=
  s.connecting = false ∨ s.disconnecting = false

/-- The state reached from `initState` by a successful connect request
immediately followed by a successful disconnect request (no events in
between): both `connecting` and `disconnecting` end up set. -/
def bothFlagsState : WifiState :=
  (cmd_wifi_disconnect
    (cmd_wifi_connect initState (some "a") none 0 0).2.1 0).2.1

/-- A concrete pre-state with a disconnect pending, for witnesses. -/
def stateDisconnecting : WifiState :=
  { initState with disconnecting := true, wifi_connected := true }

/-- A concrete pre-state that is connected with nothing pending. -/
def stateConnected : WifiState :=
  { initState with wifi_connected := true }

/-- A concrete pre-state with a DHCP lease already bound. -/
def stateDhcpDone : WifiState :=
  { initState with dhcp_configured := true }

/-! ## Helper lemmas -/

theorem flagsOk_applyEvent {s : WifiState} (e : WifiEvent) (h : FlagsOk s) :
    FlagsOk (applyEvent s e) := by
  cases e <;>
    simp only [applyEvent, handle_wifi_scan_result, handle_wifi_scan_done,
      handle_wifi_connect_result, handle_wifi_disconnect_result,
      handle_dhcp_bound, timer_timeout, FlagsOk] at h ⊢ <;>
    (try split) <;> first | exact h | simp

theorem flagsOk_applyEvents {s : WifiState} (evs : List WifiEvent)
    (h : FlagsOk s) : FlagsOk (applyEvents s evs) := by
  induction evs generalizing s with
  | nil => exact h
  | cons e rest ih =>
      exact ih (flagsOk_applyEvent e h)

theorem flagsOk_scan_done_loop {s s' : WifiState}
    (env : List (List WifiEvent)) (h : FlagsOk s)
    (hrun : scan_done_loop s env = some s') : FlagsOk s' := by
  induction env generalizing s with
  | nil =>
      rw [scan_done_loop] at hrun
      split at hrun
      · cases hrun; exact h
      · cases hrun
  | cons evs rest ih =>
      rw [scan_done_loop] at hrun
      split at hrun
      · cases hrun; exact h
      · exact ih (flagsOk_applyEvents evs h) hrun

theorem flagsOk_connecting_loop {s s' : WifiState}
    (env : List (List WifiEvent)) (h : FlagsOk s)
    (hrun : connecting_loop s env = some s') : FlagsOk s' := by
  induction env generalizing s with
  | nil =>
      rw [connecting_loop] at hrun
      split at hrun
      · cases hrun; exact h
      · cases hrun
  | cons evs rest ih =>
      rw [connecting_loop] at hrun
      split at hrun
      · cases hrun; exact h
      · exact ih (flagsOk_applyEvents evs h) hrun

theorem flagsOk_dhcp_loop {s s' : WifiState}
    (env : List (List WifiEvent)) (h : FlagsOk s)
    (hrun : dhcp_loop s env = some s') : FlagsOk s' := by
  induction env generalizing s with
  | nil =>
      rw [dhcp_loop] at hrun
      split at hrun
      · cases hrun; exact h
      · cases hrun
  | cons evs rest ih =>
      rw [dhcp_loop] at hrun
      split at hrun
      · cases hrun; exact h
      · exact ih (flagsOk_applyEvents evs h) hrun

theorem flagsOk_cmd_wifi_connecting {s s' : WifiState} {r : Int}
    (env : List (List WifiEvent)) (h : FlagsOk s)
    (hrun : cmd_wifi_connecting s env = some (r, s')) : FlagsOk s' := by
  have h0 : FlagsOk { s with timed_out := false, timer_running := true } := h
  unfold cmd_wifi_connecting at hrun
  cases hloop : connecting_loop
      { s with timed_out := false, timer_running := true } env with
  | none => simp [hloop] at hrun
  | some s1 =>
      have h1 : FlagsOk s1 := flagsOk_connecting_loop env h0 hloop
      rw [hloop] at hrun
      by_cases ht : s1.timed_out = true <;>
        simp [ht] at hrun <;>
        obtain ⟨-, rfl⟩ := hrun <;>
        exact h1

theorem flagsOk_cmd_dhcp_configured {s s' : WifiState} {r : Int}
    (env : List (List WifiEvent)) (h : FlagsOk s)
    (hrun : cmd_dhcp_configured s env = some (r, s')) : FlagsOk s' := by
  have h0 : FlagsOk { s with timed_out := false, timer_running := true } := h
  unfold cmd_dhcp_configured at hrun
  cases hloop : dhcp_loop
      { s with timed_out := false, timer_running := true } env with
  | none => simp [hloop] at hrun
  | some s1 =>
      have h1 : FlagsOk s1 := flagsOk_dhcp_loop env h0 hloop
      rw [hloop] at hrun
      by_cases ht : s1.timed_out = true <;>
        simp [ht] at hrun <;>
        obtain ⟨-, rfl⟩ := hrun <;>
        exact h1

/-! ## Claim theorems -/

/-- C1 (counterexample): `cmd_wifi_connect` called with an empty (but
non-null) SSID does NOT fail with InvalidArgument: it returns the success
code 0, issues a connect request to the stack, sets `connecting` and stores
the wifi config — the code only rejects a NULL ssid pointer. -/
theorem C1_counterexample :
    (cmd_wifi_connect initState (some "") none 0 0).1 = 0 ∧
    (cmd_wifi_connect initState (some "") none 0 0).2.2 =
      [Request.connectReq
        { ssid := "", ssid_length := 0, channel := 255, psk := none,
          psk_length := 0, security := 0, mfp_optional := false }] ∧
    (cmd_wifi_connect initState (some "") none 0 0).2.1.connecting = true ∧
    (cmd_wifi_connect initState (some "") none 0 0).2.1.wifi_config =
      some { ssid := "", psk := none, security := 0 } :=
  ⟨rfl, rfl, rfl, rfl⟩

/-- C1 (amended): only a null SSID is rejected: `cmd_wifi_connect` with a
null ssid pointer returns `-1` immediately, issues no request and changes
no state; an empty non-null SSID is not rejected. -/
theorem C1_null_ssid_rejected (s : WifiState) (psk : Option String)
    (security req : Int) :
    cmd_wifi_connect s none psk security req = (-1, s, []) := rfl

/-- C2: the disconnect-result handler clears both `disconnecting` and
`wifi_connected` (for any status) when a disconnect was pending, and leaves
the state completely unchanged on an unsolicited disconnect. -/
theorem C2_disconnect_result (s : WifiState) (status : Int) :
    (s.disconnecting = true →
      handle_wifi_disconnect_result s status =
        { s with disconnecting := false, wifi_connected := false }) ∧
    (s.disconnecting = false →
      handle_wifi_disconnect_result s status = s) := by
  constructor <;> intro h <;> simp [handle_wifi_disconnect_result, h]

/-- Witness for C2 at concrete states. -/
theorem C2_disconnect_result_witness :
    handle_wifi_disconnect_result stateDisconnecting 5 =
      { stateDisconnecting with
          disconnecting := false, wifi_connected := false } ∧
    handle_wifi_disconnect_result stateConnected 5 = stateConnected :=
  ⟨(C2_disconnect_result stateDisconnecting 5).1 rfl,
   (C2_disconnect_result stateConnected 5).2 rfl⟩

/-- C3: `scan()` always sets `scan_running` (and changes nothing else),
always issues one scan request, and returns `-ENOEXEC` exactly when the
underlying request call failed, success (0) exactly when it succeeded. -/
theorem C3_scan (s : WifiState) (req : Int) :
    (cmd_wifi_scan s req).2.1 = { s with scan_running := true } ∧
    (cmd_wifi_scan s req).2.2 = [Request.scanReq] ∧
    ((cmd_wifi_scan s req).1 = -ENOEXEC ↔ req ≠ 0) ∧
    ((cmd_wifi_scan s req).1 = 0 ↔ req = 0) := by
  by_cases h : req = 0 <;> simp [cmd_wifi_scan, h, ENOEXEC]

/-- Witness for C3 at concrete inputs. -/
theorem C3_scan_witness :
    (cmd_wifi_scan initState 0).2.1 =
      { initState with scan_running := true } ∧
    ((cmd_wifi_scan initState 0).1 = 0 ↔ (0 : Int) = 0) ∧
    ((cmd_wifi_scan initState 1).1 = -ENOEXEC ↔ (1 : Int) ≠ 0) :=
  ⟨(C3_scan initState 0).1, (C3_scan initState 0).2.2.2,
   (C3_scan initState 1).2.2.1⟩

/-- C4 (counterexample): a successful connect request immediately followed
by a disconnect request reaches a state in which `connecting` and
`disconnecting` are both set, so the unrestricted mutual-exclusion
invariant fails. -/
theorem C4_counterexample :
    Reachable bothFlagsState ∧ bothFlagsState.connecting = true ∧
      bothFlagsState.disconnecting = true :=
  ⟨Reachable.disconnect 0
    (Reachable.connect (some "a") none 0 0 Reachable.init),
   rfl, rfl⟩

/-- C4 (amended): under the caller discipline that `connect` is never
called while `disconnecting` is set and `disconnect` never while
`connecting` is set, every reachable state has at most one of
`connecting`/`disconnecting` true. -/
theorem C4_mutual_exclusion {s : WifiState} (h : ReachableSeq s) :
    s.connecting = false ∨ s.disconnecting = false := by
  induction h with
  | init => exact Or.inl rfl
  | evt e _ ih => exact flagsOk_applyEvent e ih
  | scan r _ ih =>
      unfold cmd_wifi_scan
      split <;> exact ih
  | connect ssid psk sec r _ hd ih =>
      cases ssid with
      | none => exact ih
      | some ss =>
          simp only [cmd_wifi_connect]
          split <;> exact Or.inr hd
  | disconnect r _ hc ih =>
      simp only [cmd_wifi_disconnect]
      split <;> (try split) <;> exact Or.inl hc
  | scanDoneWait env _ hrun ih => exact flagsOk_scan_done_loop env ih hrun
  | connectingWait env r _ hrun ih =>
      exact flagsOk_cmd_wifi_connecting env ih hrun
  | dhcpWait env r _ hrun ih =>
      exact flagsOk_cmd_dhcp_configured env ih hrun

/-- Witness for C4 (amended) at a concrete disciplined trace. -/
theorem C4_mutual_exclusion_witness :
    (cmd_wifi_connect initState (some "a") none 0 0).2.1.connecting = false ∨
    (cmd_wifi_connect initState (some "a") none 0 0).2.1.disconnecting =
      false :=
  C4_mutual_exclusion
    (ReachableSeq.connect (some "a") none 0 0 ReachableSeq.init rfl)

/-- C5: the connect-result handler always clears `connecting`; on zero
status it sets `wifi_connected`; on non-zero status it leaves
`wifi_connected` unchanged — in particular still false when it was false
before the event. -/
theorem C5_connect_result (s : WifiState) (status : Int) :
    (handle_wifi_connect_result s status).connecting = false ∧
    (status = 0 →
      (handle_wifi_connect_result s status).wifi_connected = true) ∧
    (status ≠ 0 →
      (handle_wifi_connect_result s status).wifi_connected =
        s.wifi_connected) ∧
    (status ≠ 0 → s.wifi_connected = false →
      (handle_wifi_connect_result s status).wifi_connected = false) := by
  by_cases h : status = 0 <;> simp [handle_wifi_connect_result, h]

/-- Witness for C5: success sets the flag, failure leaves it false. -/
theorem C5_connect_result_witness :
    (handle_wifi_connect_result initState 0).connecting = false ∧
    (handle_wifi_connect_result initState 0).wifi_connected = true ∧
    (handle_wifi_connect_result initState 1).wifi_connected = false :=
  ⟨(C5_connect_result initState 0).1,
   (C5_connect_result initState 0).2.1 rfl,
   (C5_connect_result initState 1).2.2.2 (by decide) rfl⟩

/-- C6: the scan-done handler, for every status, clears `scan_running` and
zeroes the result counter and changes nothing else (stated as a full
record equality). -/
theorem C6_scan_done (s : WifiState) (status : Int) :
    handle_wifi_scan_done s status =
      { s with scan_running := false, scan_result := 0 } := rfl

/-- C7: `disconnect()` always issues the disconnect request; on
`-EALREADY` it clears `disconnecting` and returns 0; on any other failure
it clears `disconnecting` and returns `-ENOEXEC`; on request success it
returns 0 with `disconnecting` left set. -/
theorem C7_disconnect (s : WifiState) (req : Int) :
    (cmd_wifi_disconnect s req).2.2 = [Request.disconnectReq] ∧
    (req = -EALREADY →
      cmd_wifi_disconnect s req =
        (0, { s with disconnecting := false }, [Request.disconnectReq])) ∧
    (req ≠ 0 → req ≠ -EALREADY →
      cmd_wifi_disconnect s req =
        (-ENOEXEC, { s with disconnecting := false },
          [Request.disconnectReq])) ∧
    (req = 0 →
      cmd_wifi_disconnect s req =
        (0, { s with disconnecting := true }, [Request.disconnectReq])) := by
  by_cases h0 : req = 0
  · subst h0
    simp [cmd_wifi_disconnect, EALREADY]
  · by_cases ha : req = -EALREADY
    · subst ha
      simp [cmd_wifi_disconnect, EALREADY]
    · simp [cmd_wifi_disconnect, h0, ha]

/-- Witness for C7 on the three request outcomes. -/
theorem C7_disconnect_witness :
    cmd_wifi_disconnect stateConnected (-EALREADY) =
      (0, { stateConnected with disconnecting := false },
        [Request.disconnectReq]) ∧
    cmd_wifi_disconnect stateConnected (-1) =
      (-ENOEXEC, { stateConnected with disconnecting := false },
        [Request.disconnectReq]) ∧
    cmd_wifi_disconnect stateConnected 0 =
      (0, { stateConnected with disconnecting := true },
        [Request.disconnectReq]) :=
  ⟨(C7_disconnect stateConnected (-EALREADY)).2.1 rfl,
   (C7_disconnect stateConnected (-1)).2.2.1 (by decide) (by decide),
   (C7_disconnect stateConnected 0).2.2.2 rfl⟩

/-- C8: both waits are insensitive to the initial value of `timed_out`
(it is reset at the start), and whenever they return, the shared timer is
stopped and the return value is `-ETIMEDOUT` exactly when `timed_out` was
set during the polling loop (0 exactly otherwise). -/
theorem C8_waits (s : WifiState) (b : Bool) (env : List (List WifiEvent))
    (r : Int) (s' : WifiState) :
    (cmd_wifi_connecting { s with timed_out := b } env =
      cmd_wifi_connecting s env) ∧
    (cmd_dhcp_configured { s with timed_out := b } env =
      cmd_dhcp_configured s env) ∧
    (cmd_wifi_connecting s env = some (r, s') →
      s'.timer_running = false ∧ (r = -ETIMEDOUT ↔ s'.timed_out = true) ∧
        (r = 0 ↔ s'.timed_out = false)) ∧
    (cmd_dhcp_configured s env = some (r, s') →
      s'.timer_running = false ∧ (r = -ETIMEDOUT ↔ s'.timed_out = true) ∧
        (r = 0 ↔ s'.timed_out = false)) := by
  refine ⟨rfl, rfl, ?_, ?_⟩ <;> intro hrun
  · unfold cmd_wifi_connecting at hrun
    cases hloop : connecting_loop
        { s with timed_out := false, timer_running := true } env with
    | none => simp [hloop] at hrun
    | some s1 =>
        rw [hloop] at hrun
        by_cases ht : s1.timed_out = true
        · simp only [ht, if_true, Option.some.injEq, Prod.mk.injEq] at hrun
          obtain ⟨rfl, rfl⟩ := hrun
          simp [ht, ETIMEDOUT]
        · simp only [ht, if_false, Option.some.injEq, Prod.mk.injEq] at hrun
          obtain ⟨rfl, rfl⟩ := hrun
          simp only [Bool.not_eq_true] at ht
          simp [ht, ETIMEDOUT]
  · unfold cmd_dhcp_configured at hrun
    cases hloop : dhcp_loop
        { s with timed_out := false, timer_running := true } env with
    | none => simp [hloop] at hrun
    | some s1 =>
        rw [hloop] at hrun
        by_cases ht : s1.timed_out = true
        · simp only [ht, if_true, Option.some.injEq, Prod.mk.injEq] at hrun
          obtain ⟨rfl, rfl⟩ := hrun
          simp [ht, ETIMEDOUT]
        · simp only [ht, if_false, Option.some.injEq, Prod.mk.injEq] at hrun
          obtain ⟨rfl, rfl⟩ := hrun
          simp only [Bool.not_eq_true] at ht
          simp [ht, ETIMEDOUT]

/-- Witness for C8: immediately-satisfied waits return 0 with the timer
stopped and `timed_out` false. -/
theorem C8_waits_witness :
    (initState.timer_running = false ∧
      ((0 : Int) = -ETIMEDOUT ↔ initState.timed_out = true) ∧
      ((0 : Int) = 0 ↔ initState.timed_out = false)) ∧
    (stateDhcpDone.timer_running = false ∧
      ((0 : Int) = -ETIMEDOUT ↔ stateDhcpDone.timed_out = true) ∧
      ((0 : Int) = 0 ↔ stateDhcpDone.timed_out = false)) :=
  ⟨(C8_waits initState true [] 0 initState).2.2.1 rfl,
   (C8_waits stateDhcpDone true [] 0 stateDhcpDone).2.2.2 rfl⟩

/-- C9: for every connect with a non-null SSID, the device configuration is
stored (via `set_wifi_config`) and the connect request is issued, in both
the request-success and the request-failure case; on failure the call still
returns `-ENOEXEC` with the configuration already updated. -/
theorem C9_config_set_before_request (s : WifiState) (ss : String)
    (psk : Option String) (security req : Int) :
    (cmd_wifi_connect s (some ss) psk security req).2.1.wifi_config =
      some { ssid := ss, psk := psk, security := security } ∧
    (cmd_wifi_connect s (some ss) psk security req).2.2 ≠ [] ∧
    (req ≠ 0 →
      (cmd_wifi_connect s (some ss) psk security req).1 = -ENOEXEC) := by
  by_cases h : req = 0 <;> simp [cmd_wifi_connect, h]

/-- Witness for C9: a failing connect request still leaves the stored
configuration updated. -/
theorem C9_config_set_before_request_witness :
    (cmd_wifi_connect initState (some "MySSID") (some "password123") 2
      1).2.1.wifi_config =
      some { ssid := "MySSID", psk := some "password123", security := 2 } ∧
    (cmd_wifi_connect initState (some "MySSID") (some "password123") 2
      1).1 = -ENOEXEC :=
  ⟨(C9_config_set_before_request initState "MySSID" (some "password123")
      2 1).1,
   (C9_config_set_before_request initState "MySSID" (some "password123")
      2 1).2.2 (by decide)⟩

/-- C10: `disconnect()` never changes `wifi_connected` (so
`is_connected()` is unaffected); in the already-disconnected case it
returns 0 with `disconnecting` cleared while `wifi_connected` keeps its
old value. -/
theorem C10_disconnect_preserves_connected (s : WifiState) (req : Int) :
    cmd_wifi_connected (cmd_wifi_disconnect s req).2.1 =
      cmd_wifi_connected s ∧
    (cmd_wifi_disconnect s req).2.1.wifi_connected = s.wifi_connected ∧
    (req = -EALREADY →
      (cmd_wifi_disconnect s req).1 = 0 ∧
      (cmd_wifi_disconnect s req).2.1.disconnecting = false) := by
  by_cases h0 : req = 0
  · subst h0
    simp [cmd_wifi_disconnect, cmd_wifi_connected, EALREADY]
  · by_cases ha : req = -EALREADY
    · subst ha
      simp [cmd_wifi_disconnect, cmd_wifi_connected, EALREADY]
    · simp [cmd_wifi_disconnect, cmd_wifi_connected, h0, ha]

/-- Witness for C10: after a successful already-disconnected
`disconnect()`, `is_connected()` still reports true. -/
theorem C10_disconnect_preserves_connected_witness :
    cmd_wifi_connected
      (cmd_wifi_disconnect stateConnected (-EALREADY)).2.1 = true ∧
    (cmd_wifi_disconnect stateConnected (-EALREADY)).1 = 0 ∧
    (cmd_wifi_disconnect stateConnected (-EALREADY)).2.1.disconnecting =
      false :=
  ⟨(C10_disconnect_preserves_connected stateConnected (-EALREADY)).1.trans
      rfl,
   ((C10_disconnect_preserves_connected stateConnected (-EALREADY)).2.2
      rfl).1,
   ((C10_disconnect_preserves_connected stateConnected (-EALREADY)).2.2
      rfl).2⟩

end Wifi
